import Mathlib

/-!
Verification of the subscription-management service (Go) against its
natural-language specification.

The development shallowly embeds the relevant parts of the repository:

* the Go `time` arithmetic used by the service (`time.Date` normalization,
  `Time.AddDate`, `Time.Before`, `Time.Truncate(24h)`), over a calendar
  `DateTime` record with explicit `Int` fields;
* the subscription domain model and `Validate` (src/models/subscription.go);
* the subscription service operations (src/services/subscription.go):
  `CreateSubscription`, `DeleteSubscription`, `CancelSubscription`,
  `RenewSubscription` and `calcRenewalDate`;
* the reaper loop body (src/queue/scheduler.go): `pollSubscriptions`,
  `daysUntil`, the idempotency-marker key;
* the reminder worker (src/unnamed/part_005): `handleSubscriptionReminder`
  and `sendReminderNotification`;
* the bill model and repository (src/models/bill.go, src/unnamed/part_021),
  and — modelled from the spec where the bill-aware service implementation
  is missing from the sources — the bill-aware cancel and create operations.

Stateful repository calls are modelled by explicit store passing
(`List Subscription` standing for the mongo collection), fallible
operations return `Except AppError`.  Time.Now() is passed in as an
explicit `now : DateTime` argument; all instants are modelled in a single
fixed time zone (the service compares instants only within one zone), so
`Time.Before` is the lexicographic order on calendar components.
-/

/-! ### Go `time` model -/

/-- A Go `time.Time` instant, decomposed into calendar components
(`Year`, `Month`, `Day`, `Hour`, `Minute`, `Second`, `Nanosecond`) plus an
opaque location tag standing for `Location()`.  Components of an instant
produced by the Go accessors are always in their usual ranges
(`ValidDate` below); `time.Date` accepts out-of-range components and
normalizes them. -/
structure DateTime where
  year : Int
  month : Int
  day : Int
  hour : Int
  minute : Int
  second : Int
  nsec : Int
  loc : Int
deriving DecidableEq, Repr

/-- Go `isLeap` (src: Go stdlib `time`): `year%4 == 0 && (year%100 != 0 ||
year%400 == 0)`.  Divisibility tests agree between Go's truncated `%` and
Lean's `Int.emod`. -/
def isLeap (y : Int) : Bool :=
  decide (y % 4 = 0 ∧ (y % 100 ≠ 0 ∨ y % 400 = 0))

/-- Number of days of month `m` of year `y`, for `m` in `1..12` (Go stdlib
`daysIn`).  Out-of-range months (never produced by normalization) default
to 31 so that the bounds `28 ≤ daysInMonth ≤ 31` hold unconditionally. -/
def daysInMonth (y m : Int) : Int :=
  if m = 1 then 31
  else if m = 2 then (if isLeap y then 29 else 28)
  else if m = 3 then 31
  else if m = 4 then 30
  else if m = 5 then 31
  else if m = 6 then 30
  else if m = 7 then 31
  else if m = 8 then 31
  else if m = 9 then 30
  else if m = 10 then 31
  else if m = 11 then 30
  else if m = 12 then 31
  else 31

set_option maxHeartbeats 1000000 in
/-- Every month length is between 28 and 31 (proof-carrying definition,
used by the termination argument of `normDay`). -/
def daysInMonthBounds (y m : Int) : 28 ≤ daysInMonth y m ∧ daysInMonth y m ≤ 31 := by
  unfold daysInMonth
  split_ifs <;> omega

/-- Go stdlib `norm(hi, lo, base)`: normalize `lo` into `[0, base)`
borrowing from / carrying into `hi`.  All divisions reached here have a
non-negative dividend and positive divisor, where Go's truncated division
agrees with every Lean `Int` division convention. -/
def goNorm (hi lo base : Int) : Int × Int :=
  let p : Int × Int :=
    if lo < 0 then (hi - ((-lo - 1) / base + 1), lo + ((-lo - 1) / base + 1) * base)
    else (hi, lo)
  if p.2 ≥ base then (p.1 + p.2 / base, p.2 - (p.2 / base) * base) else p

/-- The calendar month preceding month `m` of year `y`. -/
def prevYM (y m : Int) : Int × Int :=
  if m = 1 then (y - 1, 12) else (y, m - 1)

/-- The calendar month following month `m` of year `y`. -/
def nextYM (y m : Int) : Int × Int :=
  if m = 12 then (y + 1, 1) else (y, m + 1)

/-- Day-of-month normalization: Go's `time.Date` folds an out-of-range day
into the month/year via the absolute day count; that is extensionally the
repeated borrow (day below 1) / carry (day beyond the month's length) over
calendar months performed here.  Expects (and preserves) `m` in `1..12`. -/
def normDay (y m d : Int) : Int × Int × Int :=
  if d < 1 then
    normDay (prevYM y m).1 (prevYM y m).2 (d + daysInMonth (prevYM y m).1 (prevYM y m).2)
  else if daysInMonth y m < d then
    normDay (nextYM y m).1 (nextYM y m).2 (d - daysInMonth y m)
  else (y, m, d)
termination_by (if 1 ≤ d then d - 1 else 32 - d).toNat
decreasing_by
  · have h1 := daysInMonthBounds (prevYM y m).1 (prevYM y m).2
    split_ifs <;> omega
  · have h1 := daysInMonthBounds y m
    split_ifs <;> omega

/-- Go `time.Date(y, m, d, hh, mi, ss, ns, loc)`: month normalized into
`1..12` via `goNorm`, then the day folded through calendar months.  The
clock components are taken as given: every call site in the repository
passes clock components read off an existing instant, which are already in
range. -/
def goDate (y m d hh mi ss ns loc : Int) : DateTime :=
  let ym := goNorm y (m - 1) 12
  let r := normDay ym.1 (ym.2 + 1) d
  ⟨r.1, r.2.1, r.2.2, hh, mi, ss, ns, loc⟩

/-- Go `Time.AddDate(years, months, days)` =
`time.Date(Year+years, Month+months, Day+days, clock..., Location())`. -/
def addDate (t : DateTime) (years months days : Int) : DateTime :=
  goDate (t.year + years) (t.month + months) (t.day + days)
    t.hour t.minute t.second t.nsec t.loc

/-- Go `Time.Before`: with all instants modelled in one fixed zone this is
the lexicographic order on calendar components. -/
def DateTime.before (a b : DateTime) : Bool :=
  if a.year ≠ b.year then a.year < b.year
  else if a.month ≠ b.month then a.month < b.month
  else if a.day ≠ b.day then a.day < b.day
  else if a.hour ≠ b.hour then a.hour < b.hour
  else if a.minute ≠ b.minute then a.minute < b.minute
  else if a.second ≠ b.second then a.second < b.second
  else a.nsec < b.nsec

/-- Go `Time.After`. -/
def DateTime.after (a b : DateTime) : Bool :=
  b.before a

/-- The zero `time.Time` (January 1, year 1, 00:00:00 UTC, location 0). -/
def zeroTime : DateTime := ⟨1, 1, 1, 0, 0, 0, 0, 0⟩

/-- Go `Time.IsZero`. -/
def DateTime.isZero (t : DateTime) : Bool :=
  t = zeroTime

/-- Components of an instant produced by the Go accessors: month and day
in their calendar ranges. -/
def ValidDate (t : DateTime) : Prop :=
  1 ≤ t.month ∧ t.month ≤ 12 ∧ 1 ≤ t.day ∧ t.day ≤ daysInMonth t.year t.month

instance (t : DateTime) : Decidable (ValidDate t) := by
  unfold ValidDate; infer_instance

/-- Days since the Unix epoch of a calendar date (civil-from-days inverse
direction of the standard closed-form Gregorian conversion).  Used by
`daysUntil` to model Go's absolute-time `Truncate(24h)` subtraction. -/
def daysFromCivil (y m d : Int) : Int :=
  let y1 := if m ≤ 2 then y - 1 else y
  let era := Int.fdiv y1 400
  let yoe := y1 - era * 400
  let mp := Int.fmod (m + 9) 12
  let doy := (153 * mp + 2) / 5 + d - 1
  let doe := yoe * 365 + yoe / 4 - yoe / 100 + doy
  era * 146097 + doe - 719468

/-! ### Domain model (src/models, src/internal/api/shared/apperror) -/

/-- `bson.ObjectID`, modelled as its 24-character hex rendering. -/
abbrev ObjectID := String

/-- The zero `bson.ObjectID`. -/
def zeroObjectID : ObjectID := "000000000000000000000000"

/-- Go `ObjectID.IsZero`. -/
def ObjectID.isZero (i : ObjectID) : Bool :=
  i = zeroObjectID

/-- Hexadecimal digit test (`bson` hex decoding). -/
def isHexDigitChar (c : Char) : Bool :=
  c.isDigit || (('a' ≤ c && c ≤ 'f') || ('A' ≤ c && c ≤ 'F'))

/-- `bson.ObjectIDFromHex`: accepts exactly 24 hex characters. -/
def objectIDFromHex (s : String) : Option ObjectID :=
  if s.length = 24 && s.toList.all isHexDigitChar then some s else none

/-- The `apperror` taxonomy (src/apperror), by constructor used in the
embedded code. -/
inductive AppError where
  | badRequest (msg : String)
  | unauthorized (msg : String)
  | forbidden (msg : String)
  | notFound (msg : String)
  | conflict (msg : String)
  | validation (msg : String)
  | dbError
deriving DecidableEq, Repr

/-- Subscription status constants (src/models/subscription.go). -/
def Active : String := "active"

/-- Status `cancelled`. -/
def Cancelled : String := "cancelled"

/-- Status `expired`. -/
def Expired : String := "expired"

/-- Frequency constants (src/models/subscription.go). -/
def Daily : String := "daily"

/-- Frequency `weekly`. -/
def Weekly : String := "weekly"

/-- Frequency `monthly`. -/
def Monthly : String := "monthly"

/-- Frequency `yearly`. -/
def Yearly : String := "yearly"

/-- Currency constants (src/models). -/
def USD : String := "USD"

/-- Currency `EUR`. -/
def EUR : String := "EUR"

/-- Currency `GBP`. -/
def GBP : String := "GBP"

/-- Payment-status constants (src/models/bill.go). -/
def Paid : String := "paid"

/-- Payment status `refunded`. -/
def Refunded : String := "refunded"

/-- `models.Subscription` (src/models/subscription.go).  `Price` is
`float64` in the source and is only ever compared against zero; it is
modelled as an integer since no claim depends on floating-point
behaviour. -/
structure Subscription where
  id : ObjectID
  name : String
  price : Int
  currency : String
  frequency : String
  category : String
  paymentMethod : String
  status : String
  startDate : DateTime
  renewalDate : DateTime
  userID : ObjectID
  createdAt : DateTime
  updatedAt : DateTime
deriving DecidableEq, Repr

/-- Membership in the closed `Category` enumeration
(src/models/subscription.go). -/
def validCategory (c : String) : Bool :=
  c = "sports" || c = "news" || c = "entertainment" || c = "lifestyle" ||
  c = "technology" || c = "finance" || c = "politics" || c = "other"

/-- `Subscription.Validate` (src/models/subscription.go, primary version).
The two `time.Now()` reads are modelled by the single `now` argument. -/
def Subscription.validate (s : Subscription) (now : DateTime) : Except AppError Unit :=
  if s.name = "" then .error (.validation "subscription name is required")
  else if s.name.length < 2 || s.name.length > 100 then
    .error (.validation "name must be between 2 and 100 characters")
  else if s.price ≤ 0 then .error (.validation "price must be greater than 0")
  else if ¬(s.currency = USD || s.currency = EUR || s.currency = GBP) then
    .error (.validation "invalid currency")
  else if ¬(s.frequency = Daily || s.frequency = Weekly ||
      s.frequency = Monthly || s.frequency = Yearly) then
    .error (.validation "invalid frequency")
  else if ¬validCategory s.category then .error (.validation "invalid category")
  else if s.paymentMethod = "" then .error (.validation "payment method is required")
  else if ¬(s.status = Active || s.status = Cancelled || s.status = Expired) then
    .error (.validation "invalid status")
  else if s.startDate.isZero then .error (.validation "start date is required")
  else if s.startDate.after now then .error (.validation "start date must be in the past")
  else if s.renewalDate.isZero then .error (.validation "renewal date is required")
  else if s.status ≠ Expired && ¬(s.renewalDate.after s.startDate) then
    .error (.validation "renewal date must be after the start date")
  else if s.userID.isZero then .error (.validation "user ID is required")
  else .ok ()

/-! ### Subscription repository (src/repositories/subscription.go)

The mongo collection is modelled as a `List Subscription`; `_id` lookups
take the first match. -/

/-- `subscriptionRepository.GetByID` via `lib.FindOne` (src/unnamed/part_013):
no document means `not found`. -/
def repoGetByID (store : List Subscription) (id : ObjectID) : Except AppError Subscription :=
  match store.find? (fun s => s.id = id) with
  | some s => .ok s
  | none => .error (.notFound "Document not found")

/-- `subscriptionRepository.Create`: `InsertOne`, duplicate `_id` is a
`conflict`. -/
def repoCreate (store : List Subscription) (sub : Subscription) :
    Except AppError Subscription × List Subscription :=
  if store.any (fun s => s.id = sub.id) then
    (.error (.conflict "Subscription already exists"), store)
  else (.ok sub, store ++ [sub])

/-- `subscriptionRepository.Update`: `UpdateOne` on `_id` with a
`MatchedCount` check. -/
def repoUpdate (store : List Subscription) (sub : Subscription) :
    Except AppError Subscription × List Subscription :=
  if store.any (fun s => s.id = sub.id) then
    (.ok sub, store.map (fun s => if s.id = sub.id then sub else s))
  else (.error (.notFound "Subscription not found"), store)

/-- `subscriptionRepository.Delete`: `DeleteOne` on `_id` with a
`DeletedCount` check. -/
def repoDelete (store : List Subscription) (id : ObjectID) :
    Except AppError Unit × List Subscription :=
  if store.any (fun s => s.id = id) then
    (.ok (), store.filter (fun s => ¬(s.id = id)))
  else (.error (.notFound "Subscription not found"), store)

/-! ### Subscription service (src/services/subscription.go) -/

/-- `calcRenewalDate` (src/services/subscription.go). -/
def calcRenewalDate (start : DateTime) (frequency : String) : DateTime :=
  if frequency = Daily then addDate start 0 0 1
  else if frequency = Weekly then addDate start 0 0 7
  else if frequency = Monthly then
    let originalDay := start.day
    let nextMonth :=
      goDate start.year (start.month + 1) 1
        start.hour start.minute start.second start.nsec start.loc
    let nextMonth :=
      if start.month = 12 then
        goDate (start.year + 1) 1 1
          start.hour start.minute start.second start.nsec start.loc
      else nextMonth
    let lastDayOfNextMonth :=
      (goDate nextMonth.year (nextMonth.month + 1) 0 0 0 0 0 nextMonth.loc).day
    let renewalDay :=
      if originalDay > lastDayOfNextMonth then lastDayOfNextMonth else originalDay
    goDate nextMonth.year nextMonth.month renewalDay
      start.hour start.minute start.second start.nsec start.loc
  else if frequency = Yearly then addDate start 1 0 0
  else start

/-- `CreateSubscription` (src/services/subscription.go lines 38-80).  The
three `time.Now()` reads are modelled by `now`; the fresh `bson.NewObjectID()`
by `freshID`.  Returns the call result together with the collection after
the call. -/
def createSubscription (store : List Subscription) (subscription : Subscription)
    (claimedUserID : String) (now : DateTime) (freshID : ObjectID) :
    Except AppError Subscription × List Subscription :=
  match objectIDFromHex claimedUserID with
  | none => (.error (.unauthorized "Invalid user ID"), store)
  | some userID =>
    let s1 := { subscription with userID := userID }
    let s2 :=
      if s1.renewalDate.isZero then
        { s1 with renewalDate := calcRenewalDate s1.startDate s1.frequency }
      else s1
    let s3 := if s2.renewalDate.before now then { s2 with status := Expired } else s2
    match s3.validate now with
    | .error e => (.error e, store)
    | .ok _ =>
      let s4 := if s3.currency = "" then { s3 with currency := USD } else s3
      let s5 := if s4.status = "" then { s4 with status := Active } else s4
      let s6 := { s5 with createdAt := now, updatedAt := now }
      let s7 := if s6.id.isZero then { s6 with id := freshID } else s6
      repoCreate store s7

/-- `DeleteSubscription` (src/services/subscription.go lines 202-229). -/
def deleteSubscription (store : List Subscription) (id claimedUserID : String) :
    Except AppError Unit × List Subscription :=
  match objectIDFromHex id with
  | none => (.error (.badRequest "Invalid subscription ID"), store)
  | some subscriptionID =>
    match objectIDFromHex claimedUserID with
    | none => (.error (.unauthorized "Invalid user ID"), store)
    | some userID =>
      match repoGetByID store subscriptionID with
      | .error e => (.error e, store)
      | .ok subscription =>
        if subscription.userID ≠ userID then
          (.error (.forbidden "You are not allowed to delete this subscription"), store)
        else if subscription.status = Active then
          (.error (.conflict "You need to cancel the subscription first"), store)
        else repoDelete store subscriptionID

/-- `CancelSubscription` (src/services/subscription.go lines 231-261,
primary version: no bill bookkeeping). -/
def cancelSubscription (store : List Subscription) (id claimedUserID : String)
    (now : DateTime) : Except AppError Subscription × List Subscription :=
  match objectIDFromHex id with
  | none => (.error (.badRequest "Invalid subscription ID"), store)
  | some subscriptionID =>
    match objectIDFromHex claimedUserID with
    | none => (.error (.unauthorized "Invalid user ID"), store)
    | some userID =>
      match repoGetByID store subscriptionID with
      | .error e => (.error e, store)
      | .ok subscription =>
        if subscription.userID ≠ userID then
          (.error (.forbidden "You are not allowed to cancel this subscription"), store)
        else if subscription.status ≠ Active then
          (.error (.conflict "Only active subscriptions can be canceled"), store)
        else
          repoUpdate store { subscription with status := Cancelled, updatedAt := now }

/-- `RenewSubscription` (src/services/subscription.go lines 263-304).
`today` is built with `now.UTC().Location()`; locations are modelled by the
single tag 0 standing for UTC. -/
def renewSubscription (store : List Subscription) (id claimedUserID : String)
    (now : DateTime) (freshID : ObjectID) :
    Except AppError Subscription × List Subscription :=
  match objectIDFromHex id with
  | none => (.error (.badRequest "Invalid subscription ID"), store)
  | some subscriptionID =>
    match objectIDFromHex claimedUserID with
    | none => (.error (.unauthorized "Invalid user ID"), store)
    | some userID =>
      match repoGetByID store subscriptionID with
      | .error e => (.error e, store)
      | .ok subscription =>
        if subscription.userID ≠ userID then
          (.error (.forbidden "You are not allowed to renew this subscription"), store)
        else if subscription.status ≠ Active ∧ subscription.status ≠ Expired then
          (.error (.conflict "Only active subscriptions can be renewed"), store)
        else
          let today : DateTime := ⟨now.year, now.month, now.day, 0, 0, 0, 0, 0⟩
          let s1 :=
            if subscription.renewalDate.before today then
              { subscription with startDate := today }
            else
              { subscription with startDate := subscription.renewalDate }
          let s2 := { s1 with
            renewalDate := calcRenewalDate s1.startDate s1.frequency,
            status := Active, id := freshID, createdAt := now, updatedAt := now }
          repoCreate store s2

/-! ### Reaper (src/queue/scheduler.go) -/

/-- `ReminderPayload` (src/queue/scheduler.go).  `RenewalDate` is carried
as an RFC3339 string in the source and modelled as the instant itself. -/
structure ReminderPayload where
  subscriptionID : String
  daysBefore : Int
  renewalDate : DateTime
deriving DecidableEq, Repr

/-- The idempotency-marker key `fmt.Sprintf` of scheduler and worker. -/
def redisKey (id : ObjectID) (daysBefore : Int) : String :=
  "reminder_sent:" ++ id ++ ":" ++ toString daysBefore

/-- `daysUntil` (src/queue/scheduler.go lines 176-186): both instants are
truncated to 24-hour boundaries of absolute time and the difference is
taken in whole days.  With all instants modelled in UTC, `Truncate(24h)`
drops the time-of-day, so the result is the difference of epoch-day
numbers. -/
def daysUntil (targetDate : DateTime) (now : DateTime) : Int :=
  daysFromCivil targetDate.year targetDate.month targetDate.day -
    daysFromCivil now.year now.month now.day

/-- The reminder pass `pollSubscriptions` (src/queue/scheduler.go lines
84-133), as a function of the due-for-reminder query result.  The Redis
`Exists` call is the oracle `kvExists` (`none` = the call failed, `some b`
= the marker's presence); `enqueueOk` tells whether a given enqueue
succeeds.  The returned list records, in order, every reminder task for
which an enqueue was attempted, paired with the outcome of the attempt;
a failed marker check or a failed enqueue is logged in the source and the
loop continues with the remaining subscriptions. -/
def pollSubscriptions (subs : List Subscription) (kvExists : String → Option Bool)
    (enqueueOk : ReminderPayload → Bool) (now : DateTime) :
    List (ReminderPayload × Bool) :=
  match subs with
  | [] => []
  | subscription :: rest =>
    let daysBefore := daysUntil subscription.renewalDate now
    let key := redisKey subscription.id daysBefore
    match kvExists key with
    | none => pollSubscriptions rest kvExists enqueueOk now
    | some true => pollSubscriptions rest kvExists enqueueOk now
    | some false =>
      let payload : ReminderPayload :=
        ⟨subscription.id, daysBefore, subscription.renewalDate⟩
      (payload, enqueueOk payload) :: pollSubscriptions rest kvExists enqueueOk now

/-! ### Bill-aware data model (src/models/bill.go, src/unnamed/part_017,
src/internal/domain/models/user.go) -/

/-- `models.Bill` (src/models/bill.go). -/
structure Bill where
  id : ObjectID
  amount : Int
  currency : String
  subscriptionID : ObjectID
  startDate : DateTime
  endDate : DateTime
  status : String
  createdAt : DateTime
  updatedAt : DateTime
deriving DecidableEq, Repr

/-- `models.User` (src/internal/domain/models/user.go). -/
structure User where
  id : ObjectID
  name : String
  email : String
  password : String
  createdAt : DateTime
  updatedAt : DateTime
deriving DecidableEq, Repr

namespace V2

/-- The bill-aware `models.Subscription` (src/unnamed/part_017):
`valid_till` replaces the older `renewalDate`/`startDate` pair. -/
structure Subscription where
  id : ObjectID
  name : String
  price : Int
  currency : String
  frequency : String
  category : String
  status : String
  validTill : DateTime
  userID : ObjectID
  createdAt : DateTime
  updatedAt : DateTime
deriving DecidableEq, Repr

end V2

/-- `billRepository.GetRecentBill` (src/unnamed/part_021 lines 66-73):
`FindOne` over bills of the subscription with `status = paid`, sorted by
`start_date` descending — the paid bill with the greatest `start_date`
(on equal start dates the earlier-listed bill is kept, mirroring an
unspecified mongo tie-break). -/
def getRecentBill (bills : List Bill) (subscriptionID : ObjectID) : Option Bill :=
  (bills.filter (fun b => b.subscriptionID = subscriptionID && b.status = Paid)).foldl
    (fun best b =>
      match best with
      | none => some b
      | some a => if a.startDate.before b.startDate then some b else some a)
    none

/-! ### Reminder worker (src/unnamed/part_005) -/

/-- Observable outcome of one delivery of a reminder task.  `taskErr` is
the handler's return value (`none` = the task completes successfully);
`emailDelivered` whether the notification transport accepted the email;
`markerKey` the `SetEx` idempotency-marker write that was attempted, with
its TTL in hours; `markerStored` whether that write succeeded. -/
structure ReminderOutcome where
  taskErr : Option String
  emailDelivered : Bool
  markerKey : Option (String × Int)
  markerStored : Bool
deriving DecidableEq, Repr

/-- `sendReminderNotification` (src/unnamed/part_005 lines 260-306).
`fetchUser` is the user fetch (`FetchUserByIDInternal`), `emailOk` whether
`SendReminderEmail` succeeds, `kvSetOk` whether the Redis `SetEx` of the
idempotency marker succeeds.  In the source a failed `SetEx` is only
logged: the handler still returns `nil`. -/
def sendReminderNotification (subscription : V2.Subscription) (daysBefore : Int)
    (fetchUser : ObjectID → Option User) (emailOk kvSetOk : Bool) : ReminderOutcome :=
  match fetchUser subscription.userID with
  | none => ⟨some "failed to fetch user", false, none, false⟩
  | some _user =>
    if emailOk then
      ⟨none, true, some (redisKey subscription.id daysBefore, 24), kvSetOk⟩
    else
      ⟨some "failed to send reminder email", false, none, false⟩

/-- `handleSubscriptionReminder` (src/unnamed/part_005 lines 73-109), for
an already-decoded payload.  `fetchSubscription` stands for
`FetchSubscriptionByIDInternal`, a read-only fetch of the internal
subscription service whose implementation file is not among the sources;
any fetch error is mapped to a task failure exactly as in the handler. -/
def handleSubscriptionReminder (payload : ReminderPayload)
    (fetchSubscription : ObjectID → Option V2.Subscription)
    (fetchUser : ObjectID → Option User) (emailOk kvSetOk : Bool) : ReminderOutcome :=
  match objectIDFromHex payload.subscriptionID with
  | none => ⟨some "invalid subscription ID", false, none, false⟩
  | some subscriptionID =>
    match fetchSubscription subscriptionID with
    | none => ⟨some "failed to fetch subscription", false, none, false⟩
    | some subscription =>
      if subscription.status ≠ Active then ⟨none, false, none, false⟩
      else sendReminderNotification subscription payload.daysBefore fetchUser emailOk kvSetOk

/-! ### Bill-aware subscription service, modelled from the spec

The current subscription service (package `internal/domain/services`,
wired in `main.go` as `NewSubscriptionService(subscriptionRepository,
billRepository)`) is missing from the sources; only its callers
(src/main.go, src/unnamed/part_005, src/unnamed/part_019), the bill
repository and models are present.  Its cancel and create operations are
modelled from §4.1 of the spec. -/

/-- A single write against the document store, used to express write
ordering of the create path. -/
inductive StoreWrite where
  | billWrite (b : Bill)
  | subWrite (s : V2.Subscription)
deriving DecidableEq, Repr

/-- Modelled from the spec: the bill-aware `CancelSubscription`
implementation is missing from the sources (only its callers and the bill
repository are present).  Follows §4.1 Cancel: preconditions owner (else
`forbidden`) and `status = active` (else `conflict`); fetch the most
recent paid bill; if its `start_date > now`, mark it `refunded` and
shorten `valid_till` to the previous paid bill's `end_date`, otherwise
leave `valid_till` intact; finally set `status := cancelled` and bump
`updated_at`.  A missing bill surfaces as the repository's `not found`. -/
def specCancelSubscription (subs : List V2.Subscription) (bills : List Bill)
    (id userID : ObjectID) (now : DateTime) :
    Except AppError V2.Subscription × List V2.Subscription × List Bill :=
  match subs.find? (fun s => s.id = id) with
  | none => (.error (.notFound "Document not found"), subs, bills)
  | some subscription =>
    if subscription.userID ≠ userID then
      (.error (.forbidden "You are not allowed to cancel this subscription"), subs, bills)
    else if subscription.status ≠ Active then
      (.error (.conflict "Only active subscriptions can be canceled"), subs, bills)
    else
      match getRecentBill bills id with
      | none => (.error (.notFound "Document not found"), subs, bills)
      | some recentBill =>
        if recentBill.startDate.after now then
          let refunded := { recentBill with status := Refunded, updatedAt := now }
          let bills2 := bills.map (fun b => if b.id = recentBill.id then refunded else b)
          match getRecentBill bills2 id with
          | none => (.error (.notFound "Document not found"), subs, bills)
          | some prevBill =>
            let sub2 := { subscription with
              status := Cancelled, validTill := prevBill.endDate, updatedAt := now }
            (.ok sub2, subs.map (fun s => if s.id = id then sub2 else s), bills2)
        else
          let sub2 := { subscription with status := Cancelled, updatedAt := now }
          (.ok sub2, subs.map (fun s => if s.id = id then sub2 else s), bills)

/-- Modelled from the spec: the bill-aware `CreateSubscription`
implementation is missing from the sources (only its callers, the bill
repository — whose `Create` it invokes — and the models are present).
Follows §4.1 Create: validate the draft (name length 2-100, price > 0,
frequency and category in their enumerations, currency in the enumeration
after defaulting to USD); assign a fresh id, set `user_id` to the
principal, `valid_till := advance(today, frequency)`, `status := active`;
then persist a paid bill with period from today to `valid_till` followed
by the subscription — the returned write list is in persistence order,
and success is returned only with both writes present. -/
def specCreateSubscription (draft : V2.Subscription) (claimedUserID : String)
    (now : DateTime) (freshBillID freshSubID : ObjectID) :
    Except AppError (List StoreWrite × V2.Subscription) :=
  match objectIDFromHex claimedUserID with
  | none => .error (.unauthorized "Invalid user ID")
  | some userID =>
    if draft.name.length < 2 || draft.name.length > 100 then
      .error (.validation "name must be between 2 and 100 characters")
    else if draft.price ≤ 0 then .error (.validation "price must be greater than 0")
    else if ¬(draft.frequency = Daily || draft.frequency = Weekly ||
        draft.frequency = Monthly || draft.frequency = Yearly) then
      .error (.validation "invalid frequency")
    else if ¬validCategory draft.category then .error (.validation "invalid category")
    else
      let currency := if draft.currency = "" then USD else draft.currency
      if ¬(currency = USD || currency = EUR || currency = GBP) then
        .error (.validation "currency must be one of USD, EUR, GBP")
      else
        let validTill := calcRenewalDate now draft.frequency
        let subscription : V2.Subscription := { draft with
          id := freshSubID, userID := userID, currency := currency,
          status := Active, validTill := validTill,
          createdAt := now, updatedAt := now }
        let bill : Bill :=
          ⟨freshBillID, draft.price, currency, freshSubID, now, validTill, Paid, now, now⟩
        .ok ([.billWrite bill, .subWrite subscription], subscription)

/-! ### Concrete fixtures used by witnesses and counterexamples -/

/-- A user id fixture (24 hex characters). -/
def fxUserID : ObjectID := "aaaaaaaaaaaaaaaaaaaaaaaa"

/-- A subscription id fixture. -/
def fxSubID : ObjectID := "bbbbbbbbbbbbbbbbbbbbbbbb"

/-- A fresh object id fixture. -/
def fxFreshID : ObjectID := "cccccccccccccccccccccccc"

/-- A bill id fixture. -/
def fxBill1ID : ObjectID := "111111111111111111111111"

/-- A second bill id fixture. -/
def fxBill2ID : ObjectID := "222222222222222222222222"

/-- June 15, 2025 noon UTC. -/
def jun15 : DateTime := ⟨2025, 6, 15, 12, 0, 0, 0, 0⟩

/-- June 20, 2025 midnight UTC. -/
def jun20 : DateTime := ⟨2025, 6, 20, 0, 0, 0, 0, 0⟩

/-- July 15, 2025 noon UTC. -/
def jul15 : DateTime := ⟨2025, 7, 15, 12, 0, 0, 0, 0⟩

/-- August 15, 2025 noon UTC. -/
def aug15 : DateTime := ⟨2025, 8, 15, 12, 0, 0, 0, 0⟩

/-- An expired stored subscription owned by `fxUserID`. -/
def fxExpiredSub : Subscription :=
  ⟨fxSubID, "Netflix", 10, USD, Monthly, "entertainment", "card", Expired,
    jun15, jul15, fxUserID, jun15, jun15⟩

/-- A cancelled variant of the fixture subscription. -/
def fxCancelledSub : Subscription := { fxExpiredSub with status := Cancelled }

/-- An active variant of the fixture subscription. -/
def fxActiveSub : Subscription := { fxExpiredSub with status := Active }

/-- A create-request draft: renewal date supplied and already in the past
relative to `aug15`. -/
def fxDraftSub : Subscription :=
  ⟨zeroObjectID, "Netflix", 10, USD, Monthly, "entertainment", "card", "",
    jun15, jul15, zeroObjectID, zeroTime, zeroTime⟩

/-- An active bill-aware subscription whose paid-for period runs to
`aug15`. -/
def fxV2Active : V2.Subscription :=
  ⟨fxSubID, "Netflix", 10, USD, Monthly, "entertainment", Active,
    aug15, fxUserID, jun15, jun15⟩

/-- A bill-aware create-request draft. -/
def fxV2Draft : V2.Subscription :=
  ⟨zeroObjectID, "Netflix", 10, "", Monthly, "entertainment", "",
    zeroTime, zeroObjectID, zeroTime, zeroTime⟩

/-- The paid bill of the running period `[jun15, jul15)`. -/
def fxBill1 : Bill := ⟨fxBill1ID, 10, USD, fxSubID, jun15, jul15, Paid, jun15, jun15⟩

/-- The pre-paid bill of the next period `[jul15, aug15)`. -/
def fxBill2 : Bill := ⟨fxBill2ID, 10, USD, fxSubID, jul15, aug15, Paid, jul15, jul15⟩

/-- A stored user fixture. -/
def fxUser : User := ⟨fxUserID, "Anurag", "user@example.com", "pw", jun15, jun15⟩

/-- A delivered reminder payload for `fxSubID` at offset 7. -/
def fxPayload : ReminderPayload := ⟨fxSubID, 7, aug15⟩

/-! ### Helper lemmas about the date model -/

/-- December has 31 days. -/
theorem daysInMonth_12 (y : Int) : daysInMonth y 12 = 31 := by
  simp [daysInMonth]

/-- January has 31 days. -/
theorem daysInMonth_1 (y : Int) : daysInMonth y 1 = 31 := by
  simp [daysInMonth]

/-- An in-range day needs no normalization. -/
theorem normDay_in_range (y m d : Int) (h1 : 1 ≤ d) (h2 : d ≤ daysInMonth y m) :
    normDay y m d = (y, m, d) := by
  rw [normDay]
  rw [if_neg (by omega), if_neg (by omega)]

/-- Day 0 of a month (as used by the source to find the last day of the
preceding month) normalizes to the last day of the preceding month. -/
theorem normDay_zero (y m : Int) (h1 : 2 ≤ m) (h2 : m ≤ 12) :
    normDay y m 0 = (y, m - 1, daysInMonth y (m - 1)) := by
  have hp : prevYM y m = (y, m - 1) := by rw [prevYM, if_neg (by omega)]
  have hb := daysInMonthBounds y (m - 1)
  rw [normDay, if_pos (by omega), hp]
  simp only [zero_add]
  exact normDay_in_range y (m - 1) _ (by omega) le_rfl

/-- Day 0 of January normalizes to December 31 of the preceding year. -/
theorem normDay_zero_jan (y : Int) : normDay y 1 0 = (y - 1, 12, 31) := by
  have hp : prevYM y 1 = (y - 1, 12) := by rw [prevYM, if_pos rfl]
  rw [normDay, if_pos (by omega), hp]
  simp only [zero_add, daysInMonth_12]
  exact normDay_in_range (y - 1) 12 31 (by omega) (by rw [daysInMonth_12])

/-- `goNorm` is the identity on an already-normalized component. -/
theorem goNorm_small (hi lo base : Int) (h1 : 0 ≤ lo) (h2 : lo < base) :
    goNorm hi lo base = (hi, lo) := by
  rw [goNorm]
  simp only [if_neg (by omega : ¬lo < 0)]
  rw [if_neg (by omega : ¬(hi, lo).2 ≥ base)]

/-- `goNorm` carries a full period into `hi`. -/
theorem goNorm_12 (hi : Int) : goNorm hi 12 12 = (hi + 1, 0) := by
  rw [goNorm]
  norm_num

/-- `time.Date` on in-range components is the identity. -/
theorem goDate_in_range (y m d hh mi ss ns lo : Int) (h1 : 1 ≤ m) (h2 : m ≤ 12)
    (h3 : 1 ≤ d) (h4 : d ≤ daysInMonth y m) :
    goDate y m d hh mi ss ns lo = ⟨y, m, d, hh, mi, ss, ns, lo⟩ := by
  rw [goDate, goNorm_small y (m - 1) 12 (by omega) (by omega)]
  simp only
  rw [show m - 1 + 1 = m by omega, normDay_in_range y m d h3 h4]

/-- A year following a leap year is not a leap year. -/
theorem isLeap_succ (y : Int) (h : isLeap y = true) : isLeap (y + 1) = false := by
  simp only [isLeap, decide_eq_true_eq] at h
  simp only [isLeap, decide_eq_false_iff_not]
  omega

/-- A successful repository lookup. -/
theorem repoGetByID_found (store : List Subscription) (id : ObjectID) (sub : Subscription)
    (h : store.find? (fun s => s.id = id) = some sub) :
    repoGetByID store id = .ok sub := by
  rw [repoGetByID.eq_def, h]

/-- The monthly branch of `calcRenewalDate`, on any valid start instant:
the result is the next calendar month with the day-of-month clamped to
that month's length, clock and location preserved. -/
theorem calcRenewalDate_monthly_next (t : DateTime) (ht : ValidDate t) :
    calcRenewalDate t Monthly =
      ⟨(nextYM t.year t.month).1, (nextYM t.year t.month).2,
        min t.day (daysInMonth (nextYM t.year t.month).1 (nextYM t.year t.month).2),
        t.hour, t.minute, t.second, t.nsec, t.loc⟩ := by
  obtain ⟨y, m, d, hh, mi, ss, ns, lo⟩ := t
  obtain ⟨h1, h2, h3, h4⟩ := ht
  dsimp only at h1 h2 h3 h4 ⊢
  rw [calcRenewalDate]
  rw [if_neg (by decide), if_neg (by decide), if_pos rfl]
  dsimp only
  by_cases hm12 : m = 12
  · subst hm12
    rw [daysInMonth_12] at h4
    have hnx : nextYM y 12 = (y + 1, 1) := by rw [nextYM, if_pos rfl]
    rw [hnx]
    dsimp only
    rw [if_pos (rfl : (12 : Int) = 12)]
    rw [goDate_in_range (y + 1) 1 1 hh mi ss ns lo (by omega) (by omega) (by omega)
      (by rw [daysInMonth_1]; omega)]
    dsimp only
    have hL : goDate (y + 1) (1 + 1) 0 0 0 0 0 lo = ⟨y + 1, 1, 31, 0, 0, 0, 0, lo⟩ := by
      rw [goDate, goNorm_small (y + 1) (1 + 1 - 1) 12 (by omega) (by omega)]
      dsimp only
      rw [show (1 : Int) + 1 - 1 + 1 = 2 by norm_num,
        normDay_zero (y + 1) 2 (by omega) (by omega)]
      rw [show (2 : Int) - 1 = 1 by norm_num, daysInMonth_1]
    rw [hL]
    dsimp only
    rw [goDate_in_range (y + 1) 1 _ hh mi ss ns lo (by omega) (by omega) (by omega)
      (by rw [daysInMonth_1]; split_ifs <;> omega)]
    rw [daysInMonth_1]
    congr 1
    rw [min_def]
    split_ifs <;> omega
  · by_cases hm11 : m = 11
    · subst hm11
      have hd11 : daysInMonth y 11 = 30 := by simp [daysInMonth]
      rw [hd11] at h4
      have hnx : nextYM y 11 = (y, 11 + 1) := by rw [nextYM, if_neg (by omega)]
      rw [hnx]
      dsimp only
      rw [if_neg hm12]
      rw [goDate_in_range y (11 + 1) 1 hh mi ss ns lo (by omega) (by omega) (by omega)
        (by rw [show (11 : Int) + 1 = 12 by norm_num, daysInMonth_12]; omega)]
      dsimp only
      have hL : goDate y (11 + 1 + 1) 0 0 0 0 0 lo = ⟨y, 12, 31, 0, 0, 0, 0, lo⟩ := by
        rw [goDate]
        rw [show (11 : Int) + 1 + 1 - 1 = 12 by norm_num, goNorm_12]
        dsimp only
        rw [show (0 : Int) + 1 = 1 by norm_num, normDay_zero_jan]
        rw [show y + 1 - 1 = y by ring]
      rw [hL]
      dsimp only
      rw [goDate_in_range y (11 + 1) _ hh mi ss ns lo (by omega) (by omega) (by omega)
        (by rw [show (11 : Int) + 1 = 12 by norm_num, daysInMonth_12]; split_ifs <;> omega)]
      rw [show (11 : Int) + 1 = 12 by norm_num, daysInMonth_12]
      congr 1
      rw [min_def]
      split_ifs <;> omega
    · have hb := daysInMonthBounds y m
      have hbn := daysInMonthBounds y (m + 1)
      have hnx : nextYM y m = (y, m + 1) := by rw [nextYM, if_neg hm12]
      rw [hnx]
      dsimp only
      rw [if_neg hm12]
      rw [goDate_in_range y (m + 1) 1 hh mi ss ns lo (by omega) (by omega) (by omega)
        (by omega)]
      dsimp only
      have hL : goDate y (m + 1 + 1) 0 0 0 0 0 lo
          = ⟨y, m + 1, daysInMonth y (m + 1), 0, 0, 0, 0, lo⟩ := by
        rw [goDate, goNorm_small y (m + 1 + 1 - 1) 12 (by omega) (by omega)]
        dsimp only
        rw [show m + 1 + 1 - 1 + 1 = m + 2 by ring,
          normDay_zero y (m + 2) (by omega) (by omega)]
        rw [show m + 2 - 1 = m + 1 by ring]
      rw [hL]
      dsimp only
      rw [goDate_in_range y (m + 1) _ hh mi ss ns lo (by omega) (by omega) (by omega)
        (by split_ifs <;> omega)]
      congr 1
      rw [min_def]
      split_ifs <;> omega

/-! ### Claim theorems -/

/-- C1: For every cancel request by the owner of an active subscription,
the (spec-modelled) bill-aware `CancelSubscription` fetches the most
recent paid bill for the subscription (hypothesis `hrec`, with
`getRecentBill` embedded from src/unnamed/part_021); if that bill's
`start_date` is strictly after `now` it marks the bill `refunded` and
shortens `valid_till` to the previous paid bill's `end_date`, otherwise
it leaves `valid_till` unchanged; in both cases it sets the status to
`cancelled` and bumps `updated_at`. -/
theorem specCancelSubscription_refund_policy (subs : List V2.Subscription)
    (bills : List Bill) (id userID : ObjectID) (now : DateTime)
    (sub : V2.Subscription) (recent : Bill)
    (hfind : subs.find? (fun s => s.id = id) = some sub)
    (hown : sub.userID = userID)
    (hact : sub.status = Active)
    (hrec : getRecentBill bills id = some recent) :
    (∀ prev : Bill, recent.startDate.after now = true →
      getRecentBill (bills.map (fun b =>
          if b.id = recent.id then { recent with status := Refunded, updatedAt := now }
          else b)) id = some prev →
      specCancelSubscription subs bills id userID now =
        (.ok { sub with status := Cancelled, validTill := prev.endDate, updatedAt := now },
         subs.map (fun s =>
           if s.id = id then
             { sub with status := Cancelled, validTill := prev.endDate, updatedAt := now }
           else s),
         bills.map (fun b =>
           if b.id = recent.id then { recent with status := Refunded, updatedAt := now }
           else b))) ∧
    (recent.startDate.after now = false →
      specCancelSubscription subs bills id userID now =
        (.ok { sub with status := Cancelled, updatedAt := now },
         subs.map (fun s =>
           if s.id = id then { sub with status := Cancelled, updatedAt := now } else s),
         bills)) := by
  constructor
  · intro prev hafter hprev
    rw [specCancelSubscription.eq_def, hfind]
    dsimp only
    rw [if_neg (by simp [hown]), if_neg (by simp [hact]), hrec]
    dsimp only
    rw [if_pos hafter, hprev]
  · intro hafter
    rw [specCancelSubscription.eq_def, hfind]
    dsimp only
    rw [if_neg (by simp [hown]), if_neg (by simp [hact]), hrec]
    dsimp only
    rw [if_neg (by rw [hafter]; exact Bool.false_ne_true)]

/-- C1 witness: cancelling `fxV2Active` on June 20, while the pre-paid
period `[jul15, aug15)` has not begun, refunds `fxBill2` and shortens
`valid_till` to `fxBill1`'s end date `jul15`. -/
theorem specCancelSubscription_refund_policy_witness :
    getRecentBill [fxBill1, fxBill2] fxSubID = some fxBill2 ∧
    fxBill2.startDate.after jun20 = true ∧
    specCancelSubscription [fxV2Active] [fxBill1, fxBill2] fxSubID fxUserID jun20 =
      (.ok ⟨fxSubID, "Netflix", 10, USD, Monthly, "entertainment", Cancelled, jul15,
        fxUserID, jun15, jun20⟩,
       [⟨fxSubID, "Netflix", 10, USD, Monthly, "entertainment", Cancelled, jul15,
        fxUserID, jun15, jun20⟩],
       [fxBill1, ⟨fxBill2ID, 10, USD, fxSubID, jul15, aug15, Refunded, jul15, jun20⟩]) :=
  ⟨by decide, by decide,
    ((specCancelSubscription_refund_policy [fxV2Active] [fxBill1, fxBill2] fxSubID fxUserID
      jun20 fxV2Active fxBill2 (by decide) (by decide) (by decide) (by decide)).1 fxBill1
      (by decide) (by decide)).trans rfl⟩

/-- C2: For every valid create request, the (spec-modelled) bill-aware
`CreateSubscription` returns success only with the write list containing
exactly a paid bill with period from today (`now`) to `valid_till`
followed by the subscription — bill first, subscription second, both
present before success is returned. -/
theorem specCreateSubscription_bill_first (draft : V2.Subscription)
    (claimedUserID : String) (now : DateTime) (freshBillID freshSubID : ObjectID)
    (userID : ObjectID)
    (hparse : objectIDFromHex claimedUserID = some userID)
    (hname1 : 2 ≤ draft.name.length) (hname2 : draft.name.length ≤ 100)
    (hprice : 0 < draft.price)
    (hfreq : draft.frequency = Daily ∨ draft.frequency = Weekly ∨
      draft.frequency = Monthly ∨ draft.frequency = Yearly)
    (hcat : validCategory draft.category = true)
    (hcurr : draft.currency = "" ∨ draft.currency = USD ∨
      draft.currency = EUR ∨ draft.currency = GBP) :
    ∃ bill subscription,
      specCreateSubscription draft claimedUserID now freshBillID freshSubID =
        .ok ([.billWrite bill, .subWrite subscription], subscription) ∧
      bill.startDate = now ∧
      bill.endDate = subscription.validTill ∧
      bill.status = Paid ∧
      subscription.validTill = calcRenewalDate now draft.frequency := by
  have hfb : (draft.frequency = Daily || draft.frequency = Weekly ||
      draft.frequency = Monthly || draft.frequency = Yearly) = true := by
    rcases hfreq with h | h | h | h <;> rw [h] <;> decide
  rw [specCreateSubscription.eq_def, hparse]
  dsimp only
  rw [if_neg (by simp only [Bool.or_eq_true, decide_eq_true_eq]; omega)]
  rw [if_neg (by omega)]
  rw [if_neg (not_not_intro hfb)]
  rw [if_neg (by simp [hcat])]
  by_cases hce : draft.currency = ""
  · rw [if_pos hce]
    rw [if_neg (not_not_intro (by decide))]
    exact ⟨_, _, rfl, rfl, rfl, rfl, rfl⟩
  · rw [if_neg hce]
    have hcb : (draft.currency = USD || draft.currency = EUR ||
        draft.currency = GBP) = true := by
      rcases hcurr with h | h | h | h
      · exact absurd h hce
      all_goals rw [h]; decide
    rw [if_neg (not_not_intro hcb)]
    exact ⟨_, _, rfl, rfl, rfl, rfl, rfl⟩

/-- C2 witness: creating from the draft `fxV2Draft` on June 15 yields the
ordered write list bill-then-subscription. -/
theorem specCreateSubscription_bill_first_witness :
    objectIDFromHex fxUserID = some fxUserID ∧
    (∃ bill subscription,
      specCreateSubscription fxV2Draft fxUserID jun15 fxBill1ID fxSubID =
        .ok ([.billWrite bill, .subWrite subscription], subscription) ∧
      bill.startDate = jun15 ∧ bill.endDate = subscription.validTill ∧
      bill.status = Paid ∧
      subscription.validTill = calcRenewalDate jun15 fxV2Draft.frequency) :=
  ⟨by decide, specCreateSubscription_bill_first fxV2Draft fxUserID jun15 fxBill1ID fxSubID
    fxUserID (by decide) (by decide) (by decide) (by decide) (by decide) (by decide)
    (by decide)⟩

/-- C3 counterexample: the claim says every subscription whose status is
not `active` (cancelled or expired) gets a `conflict` on renewal; but on
the expired fixture, owned by the caller, `RenewSubscription` proceeds
and returns success. -/
theorem renewSubscription_expired_accepted_cex :
    fxExpiredSub.status = Expired ∧ fxExpiredSub.userID = fxUserID ∧
    ∃ s store2,
      renewSubscription [fxExpiredSub] fxSubID fxUserID aug15 fxFreshID =
        (.ok s, store2) := by
  refine ⟨rfl, rfl, ?_⟩
  exact ⟨_, _, rfl⟩

/-- C3 (amended): `RenewSubscription` succeeds only on subscriptions whose
status is `active` or `expired`; for every owned subscription whose
status is neither (i.e. `cancelled`), renewal returns a conflict error
and leaves the stored subscriptions unchanged. -/
theorem renewSubscription_cancelled_conflict (store : List Subscription)
    (id claimedUserID : String) (now : DateTime) (freshID : ObjectID)
    (sid uid : ObjectID) (sub : Subscription)
    (hid : objectIDFromHex id = some sid)
    (huid : objectIDFromHex claimedUserID = some uid)
    (hfind : store.find? (fun s => s.id = sid) = some sub)
    (hown : sub.userID = uid)
    (hstat1 : sub.status ≠ Active) (hstat2 : sub.status ≠ Expired) :
    renewSubscription store id claimedUserID now freshID =
      (.error (.conflict "Only active subscriptions can be renewed"), store) := by
  simp only [renewSubscription, hid, huid, repoGetByID_found store sid sub hfind]
  rw [if_neg (by simp [hown]), if_pos ⟨hstat1, hstat2⟩]

/-- C3 witness: renewing the cancelled fixture returns `conflict` and the
store is unchanged. -/
theorem renewSubscription_cancelled_conflict_witness :
    fxCancelledSub.status ≠ Active ∧ fxCancelledSub.status ≠ Expired ∧
    renewSubscription [fxCancelledSub] fxSubID fxUserID aug15 fxFreshID =
      (.error (.conflict "Only active subscriptions can be renewed"), [fxCancelledSub]) :=
  ⟨by decide, by decide, renewSubscription_cancelled_conflict [fxCancelledSub] fxSubID
    fxUserID aug15 fxFreshID fxSubID fxUserID fxCancelledSub (by decide) (by decide)
    (by decide) (by decide) (by decide) (by decide)⟩

/-- C4 counterexample: the claim says yearly `advance` on Feb 29 of a leap
year clamps to Feb 28 of the next year; the code (`AddDate(1,0,0)`, with
Go's `time.Date` normalization) instead yields March 1 of the next year. -/
theorem calcRenewalDate_feb29_clamp_cex :
    calcRenewalDate ⟨2024, 2, 29, 10, 30, 0, 0, 0⟩ Yearly =
      ⟨2025, 3, 1, 10, 30, 0, 0, 0⟩ ∧
    (⟨2025, 3, 1, 10, 30, 0, 0, 0⟩ : DateTime) ≠ ⟨2025, 2, 28, 10, 30, 0, 0, 0⟩ := by
  constructor
  · rw [calcRenewalDate]
    rw [if_neg (by decide), if_neg (by decide), if_neg (by decide), if_pos rfl]
    rw [addDate, goDate]
    dsimp only
    rw [show (2 : Int) + 0 - 1 = 1 by norm_num]
    rw [goNorm_small (2024 + 1) 1 12 (by omega) (by omega)]
    dsimp only
    rw [show (1 : Int) + 1 = 2 by norm_num, show (29 : Int) + 0 = 29 by norm_num]
    rw [show (2024 : Int) + 1 = 2025 by norm_num]
    rw [normDay, if_neg (by omega), if_pos (by decide)]
    rw [show nextYM 2025 2 = (2025, 3) from by decide]
    dsimp only
    rw [show (29 : Int) - daysInMonth 2025 2 = 1 from by decide]
    rw [normDay_in_range 2025 3 1 (by decide) (by decide)]
  · decide

/-- C4 (amended): for every start instant falling on Feb 29 of a leap
year, `calcRenewalDate` with frequency `yearly` returns March 1 of the
next calendar year (Go's `AddDate` normalizes the non-existent Feb 29
forward rather than clamping to Feb 28), preserving the time-of-day and
location. -/
theorem calcRenewalDate_feb29_to_mar1 (t : DateTime) (ht : ValidDate t)
    (hm : t.month = 2) (hd : t.day = 29) :
    calcRenewalDate t Yearly =
      ⟨t.year + 1, 3, 1, t.hour, t.minute, t.second, t.nsec, t.loc⟩ := by
  obtain ⟨y, m, d, hh, mi, ss, ns, lo⟩ := t
  dsimp only at hm hd ⊢
  subst hm hd
  obtain ⟨h1, h2, h3, h4⟩ := ht
  dsimp only at h4
  have hleap : isLeap y = true := by
    by_contra hc
    rw [Bool.not_eq_true] at hc
    have hd28 : daysInMonth y 2 = 28 := by simp [daysInMonth, hc]
    omega
  have hdim2 : daysInMonth (y + 1) 2 = 28 := by
    simp [daysInMonth, isLeap_succ y hleap]
  rw [calcRenewalDate]
  rw [if_neg (by decide), if_neg (by decide), if_neg (by decide), if_pos rfl]
  rw [addDate, goDate]
  rw [show (2 : Int) + 0 - 1 = 1 by norm_num]
  rw [goNorm_small (y + 1) 1 12 (by omega) (by omega)]
  dsimp only
  rw [show (1 : Int) + 1 = 2 by norm_num, show (29 : Int) + 0 = 29 by norm_num]
  rw [normDay, if_neg (by omega), if_pos (by rw [hdim2]; norm_num)]
  have hnx : nextYM (y + 1) 2 = (y + 1, 3) := by
    rw [nextYM, if_neg (by omega)]
    norm_num
  rw [hnx, hdim2]
  dsimp only
  rw [show (29 : Int) - 28 = 1 by norm_num]
  rw [normDay_in_range (y + 1) 3 1 (by omega) (by simp [daysInMonth])]

/-- C4 witness: Feb 29, 2024 advances yearly to March 1, 2025 at the same
time-of-day. -/
theorem calcRenewalDate_feb29_to_mar1_witness :
    ValidDate ⟨2024, 2, 29, 7, 45, 0, 0, 0⟩ ∧
    calcRenewalDate ⟨2024, 2, 29, 7, 45, 0, 0, 0⟩ Yearly = ⟨2025, 3, 1, 7, 45, 0, 0, 0⟩ :=
  ⟨by decide, (calcRenewalDate_feb29_to_mar1 ⟨2024, 2, 29, 7, 45, 0, 0, 0⟩ (by decide)
    rfl rfl).trans (by decide)⟩

/-- C5: for every start instant, `calcRenewalDate` with frequency
`monthly` returns the same day-of-month in the next calendar month,
clamped to the last day of that month when the day does not exist,
preserving hour, minute, second, nanosecond and location; in particular
Mar 31 advances to Apr 30 and Apr 30 advances to May 30 (not May 31) —
the clamp applies to the input's day-of-month. -/
theorem calcRenewalDate_monthly_clamp :
    (∀ t : DateTime, ValidDate t →
      calcRenewalDate t Monthly =
        ⟨(nextYM t.year t.month).1, (nextYM t.year t.month).2,
          min t.day (daysInMonth (nextYM t.year t.month).1 (nextYM t.year t.month).2),
          t.hour, t.minute, t.second, t.nsec, t.loc⟩) ∧
    calcRenewalDate ⟨2025, 3, 31, 9, 15, 30, 500, 0⟩ Monthly =
      ⟨2025, 4, 30, 9, 15, 30, 500, 0⟩ ∧
    calcRenewalDate ⟨2025, 4, 30, 9, 15, 30, 500, 0⟩ Monthly =
      ⟨2025, 5, 30, 9, 15, 30, 500, 0⟩ := by
  refine ⟨calcRenewalDate_monthly_next, ?_, ?_⟩
  · rw [calcRenewalDate_monthly_next ⟨2025, 3, 31, 9, 15, 30, 500, 0⟩ (by decide)]
    decide
  · rw [calcRenewalDate_monthly_next ⟨2025, 4, 30, 9, 15, 30, 500, 0⟩ (by decide)]
    decide

/-- C5 witness: Jan 31, 2025 advances monthly to Feb 28, 2025 (clamped),
preserving the time-of-day. -/
theorem calcRenewalDate_monthly_clamp_witness :
    ValidDate ⟨2025, 1, 31, 8, 0, 0, 0, 0⟩ ∧
    calcRenewalDate ⟨2025, 1, 31, 8, 0, 0, 0, 0⟩ Monthly = ⟨2025, 2, 28, 8, 0, 0, 0, 0⟩ :=
  ⟨by decide, (calcRenewalDate_monthly_clamp.1 ⟨2025, 1, 31, 8, 0, 0, 0, 0⟩
    (by decide)).trans (by decide)⟩

/-- C6 counterexample: the claim says active or expired subscriptions
cannot be hard-deleted; but deleting the owned expired fixture succeeds
and removes the row. -/
theorem deleteSubscription_expired_removed_cex :
    fxExpiredSub.status = Expired ∧
    deleteSubscription [fxExpiredSub] fxSubID fxUserID = (.ok (), []) := by
  exact ⟨rfl, rfl⟩

/-- C6 (amended): `DeleteSubscription` refuses only active subscriptions:
for every subscription owned by the principal whose status is `active`
the delete request is refused with `conflict` and the row is not removed,
while a subscription whose status is not `active` (cancelled or expired)
is hard-removed. -/
theorem deleteSubscription_refuses_only_active (store : List Subscription)
    (id claimedUserID : String) (sid uid : ObjectID) (sub : Subscription)
    (hid : objectIDFromHex id = some sid)
    (huid : objectIDFromHex claimedUserID = some uid)
    (hfind : store.find? (fun s => s.id = sid) = some sub)
    (hown : sub.userID = uid) :
    (sub.status = Active →
      deleteSubscription store id claimedUserID =
        (.error (.conflict "You need to cancel the subscription first"), store)) ∧
    (sub.status ≠ Active →
      deleteSubscription store id claimedUserID =
        (.ok (), store.filter (fun s => ¬(s.id = sid)))) := by
  have hmem : sub ∈ store := List.mem_of_find?_eq_some hfind
  have hsubid : sub.id = sid := by
    have := List.find?_some hfind
    simpa using this
  have hany : store.any (fun s => s.id = sid) = true := by
    rw [List.any_eq_true]
    exact ⟨sub, hmem, by simp [hsubid]⟩
  constructor
  · intro hact
    simp only [deleteSubscription, hid, huid, repoGetByID_found store sid sub hfind]
    rw [if_neg (by simp [hown]), if_pos hact]
  · intro hnact
    simp only [deleteSubscription, hid, huid, repoGetByID_found store sid sub hfind]
    rw [if_neg (by simp [hown]), if_neg hnact, repoDelete, if_pos hany]

/-- C6 witness: deleting the owned active fixture is refused with
`conflict` and the store is unchanged. -/
theorem deleteSubscription_refuses_only_active_witness :
    fxActiveSub.status = Active ∧
    deleteSubscription [fxActiveSub] fxSubID fxUserID =
      (.error (.conflict "You need to cancel the subscription first"), [fxActiveSub]) :=
  ⟨by decide, (deleteSubscription_refuses_only_active [fxActiveSub] fxSubID fxUserID
    fxSubID fxUserID fxActiveSub (by decide) (by decide) (by decide) (by decide)).1
    (by decide)⟩

/-- C7: cancelling a subscription whose status is not `active` (cancelled
or expired), by its owner, fails with a conflict error and mutates
nothing: the stored collection is identical before and after the call. -/
theorem cancelSubscription_non_active_conflict (store : List Subscription)
    (id claimedUserID : String) (now : DateTime) (sid uid : ObjectID)
    (sub : Subscription)
    (hid : objectIDFromHex id = some sid)
    (huid : objectIDFromHex claimedUserID = some uid)
    (hfind : store.find? (fun s => s.id = sid) = some sub)
    (hown : sub.userID = uid)
    (hstat : sub.status ≠ Active) :
    cancelSubscription store id claimedUserID now =
      (.error (.conflict "Only active subscriptions can be canceled"), store) := by
  simp only [cancelSubscription, hid, huid, repoGetByID_found store sid sub hfind]
  rw [if_neg (by simp [hown]), if_pos hstat]

/-- C7 witness: cancelling the already-cancelled fixture returns
`conflict` and the store is unchanged. -/
theorem cancelSubscription_non_active_conflict_witness :
    fxCancelledSub.status ≠ Active ∧
    cancelSubscription [fxCancelledSub] fxSubID fxUserID aug15 =
      (.error (.conflict "Only active subscriptions can be canceled"), [fxCancelledSub]) :=
  ⟨by decide, cancelSubscription_non_active_conflict [fxCancelledSub] fxSubID fxUserID
    aug15 fxSubID fxUserID fxCancelledSub (by decide) (by decide) (by decide) (by decide)
    (by decide)⟩

/-- C8: on each reminder pass, every queried subscription is processed in
order; for a subscription with computed calendar-day offset `k` a
reminder enqueue is attempted exactly when the idempotency marker
`reminder_sent` of its id and `k` is reported absent (`some false`), and
neither a failed marker check (`none`) nor a failed enqueue stops the
pass from processing the remaining subscriptions. -/
theorem pollSubscriptions_enqueue_iff_marker_absent (xs ys : List Subscription)
    (s : Subscription) (kvExists : String → Option Bool)
    (enqueueOk : ReminderPayload → Bool) (now : DateTime) :
    pollSubscriptions (xs ++ s :: ys) kvExists enqueueOk now =
      pollSubscriptions xs kvExists enqueueOk now ++
      (if kvExists (redisKey s.id (daysUntil s.renewalDate now)) = some false then
        [(⟨s.id, daysUntil s.renewalDate now, s.renewalDate⟩,
          enqueueOk ⟨s.id, daysUntil s.renewalDate now, s.renewalDate⟩)]
      else []) ++
      pollSubscriptions ys kvExists enqueueOk now := by
  induction xs with
  | nil =>
    simp only [List.nil_append, pollSubscriptions]
    rcases h : kvExists (redisKey s.id (daysUntil s.renewalDate now)) with _ | b
    · simp [h]
    · cases b <;> simp [h]
  | cons x xs ih =>
    simp only [List.cons_append, pollSubscriptions]
    rcases h : kvExists (redisKey x.id (daysUntil x.renewalDate now)) with _ | b
    · simpa [h] using ih
    · cases b <;> simp [h, ih]

/-- C9: for a delivered reminder task whose subscription id parses and
resolves, (a) the handler returns success without sending any email when
the subscription's status is not `active`; (b) the idempotency marker is
written only after a successful send — a marker write implies the email
was delivered and the task succeeded; (c) when the send succeeds the
handler writes the marker of the subscription id and offset with a 24h
TTL and still completes successfully even when that write fails
(`kvSetOk` arbitrary). -/
theorem handleSubscriptionReminder_policy (payload : ReminderPayload)
    (fetchSubscription : ObjectID → Option V2.Subscription)
    (fetchUser : ObjectID → Option User) (emailOk kvSetOk : Bool)
    (sid : ObjectID) (sub : V2.Subscription)
    (hparse : objectIDFromHex payload.subscriptionID = some sid)
    (hfetch : fetchSubscription sid = some sub) :
    (sub.status ≠ Active →
      handleSubscriptionReminder payload fetchSubscription fetchUser emailOk kvSetOk =
        ⟨none, false, none, false⟩) ∧
    ((handleSubscriptionReminder payload fetchSubscription fetchUser emailOk
        kvSetOk).markerKey.isSome = true →
      (handleSubscriptionReminder payload fetchSubscription fetchUser emailOk
        kvSetOk).emailDelivered = true ∧
      emailOk = true ∧
      (handleSubscriptionReminder payload fetchSubscription fetchUser emailOk
        kvSetOk).taskErr = none) ∧
    (sub.status = Active → ∀ user, fetchUser sub.userID = some user → emailOk = true →
      handleSubscriptionReminder payload fetchSubscription fetchUser emailOk kvSetOk =
        ⟨none, true, some (redisKey sub.id payload.daysBefore, 24), kvSetOk⟩) := by
  refine ⟨?_, ?_, ?_⟩
  · intro hna
    simp only [handleSubscriptionReminder, hparse, hfetch]
    rw [if_pos hna]
  · intro hmk
    simp only [handleSubscriptionReminder, hparse, hfetch] at hmk ⊢
    by_cases hst : sub.status ≠ Active
    · rw [if_pos hst] at hmk
      simp at hmk
    · rw [if_neg hst] at hmk ⊢
      rw [sendReminderNotification.eq_def] at hmk ⊢
      rcases hu : fetchUser sub.userID with _ | user
      · try rw [hu] at hmk
        simp at hmk
      · try rw [hu] at hmk
        try rw [hu]
        dsimp only at hmk ⊢
        rcases he : emailOk with _ | _ <;> simp_all
  · intro hact user hu he
    simp only [handleSubscriptionReminder, hparse, hfetch]
    rw [if_neg (by simp [hact])]
    rw [sendReminderNotification.eq_def, hu]
    dsimp only
    rw [he, if_pos rfl]

/-- C9 witness: an active subscription, a found user and a successful
send with a failing marker write (`kvSetOk = false`): the task still
succeeds and the marker write of key `reminder_sent` with the 24h TTL was
attempted after the delivered email. -/
theorem handleSubscriptionReminder_policy_witness :
    objectIDFromHex fxPayload.subscriptionID = some fxSubID ∧
    handleSubscriptionReminder fxPayload
      (fun i => if i = fxSubID then some fxV2Active else none)
      (fun i => if i = fxUserID then some fxUser else none) true false =
      ⟨none, true, some (redisKey fxV2Active.id fxPayload.daysBefore, 24), false⟩ :=
  ⟨by decide,
    (handleSubscriptionReminder_policy fxPayload
      (fun i => if i = fxSubID then some fxV2Active else none)
      (fun i => if i = fxUserID then some fxUser else none) true false fxSubID fxV2Active
      (by decide) (by decide)).2.2 (by decide) fxUser (by decide) rfl⟩

/-- C10: a create request whose supplied renewal date lies before the
current time is not rejected: the subscription is persisted with status
`expired` (validation skips the renewal-after-start check for expired
subscriptions), so a freshly created subscription can be born expired. -/
theorem createSubscription_born_expired (store : List Subscription) (sub : Subscription)
    (claimedUserID : String) (now : DateTime) (freshID : ObjectID) (uid : ObjectID)
    (hparse : objectIDFromHex claimedUserID = some uid)
    (huidnz : uid.isZero = false)
    (hrenewNZ : sub.renewalDate.isZero = false)
    (hbefore : sub.renewalDate.before now = true)
    (hname1 : ¬sub.name = "")
    (hname2 : 2 ≤ sub.name.length) (hname3 : sub.name.length ≤ 100)
    (hprice : 0 < sub.price)
    (hcurr : sub.currency = USD ∨ sub.currency = EUR ∨ sub.currency = GBP)
    (hfreq : sub.frequency = Daily ∨ sub.frequency = Weekly ∨
      sub.frequency = Monthly ∨ sub.frequency = Yearly)
    (hcat : validCategory sub.category = true)
    (hpay : ¬sub.paymentMethod = "")
    (hstart1 : sub.startDate.isZero = false)
    (hstart2 : sub.startDate.after now = false)
    (hidz : sub.id.isZero = true)
    (hfresh : store.any (fun s => s.id = freshID) = false) :
    ∃ result,
      createSubscription store sub claimedUserID now freshID =
        (.ok result, store ++ [result]) ∧
      result.status = Expired := by
  have hcurrne : ¬sub.currency = "" := by
    rcases hcurr with h | h | h <;> rw [h] <;> decide
  refine ⟨{ sub with userID := uid, status := Expired, createdAt := now, updatedAt := now, id := freshID }, ?_, rfl⟩
  rw [createSubscription.eq_def, hparse]
  dsimp only
  have hc1 : ¬(sub.renewalDate.isZero = true) := by
    rw [hrenewNZ]; exact Bool.false_ne_true
  rw [if_neg hc1]
  dsimp only
  rw [if_pos hbefore]
  have hval : ({ sub with userID := uid, status := Expired } : Subscription).validate now
      = .ok () := by
    rw [Subscription.validate.eq_def]
    dsimp only
    rw [if_neg hname1]
    rw [if_neg (by simp; omega)]
    rw [if_neg (by omega)]
    rw [if_neg (by simp; rcases hcurr with h | h | h <;> simp [h])]
    rw [if_neg (by simp; rcases hfreq with h | h | h | h <;> simp [h])]
    rw [if_neg (by simp [hcat])]
    rw [if_neg hpay]
    rw [if_neg (by simp [Expired, Active, Cancelled])]
    rw [if_neg (by rw [hstart1]; exact Bool.false_ne_true)]
    rw [if_neg (by rw [hstart2]; exact Bool.false_ne_true)]
    rw [if_neg (by rw [hrenewNZ]; exact Bool.false_ne_true)]
    rw [if_neg (by simp [Expired])]
    rw [if_neg (by rw [huidnz]; exact Bool.false_ne_true)]
  rw [hval]
  dsimp only
  rw [if_neg hcurrne]
  dsimp only
  rw [if_neg (by decide : ¬(Expired = ""))]
  dsimp only
  rw [if_pos hidz]
  rw [repoCreate.eq_def]
  rw [if_neg (by rw [hfresh]; exact Bool.false_ne_true)]

/-- C10 witness: the draft with renewal date July 15 created at August 15
is accepted and persisted with status `expired`. -/
theorem createSubscription_born_expired_witness :
    fxDraftSub.renewalDate.before aug15 = true ∧
    (∃ result, createSubscription [] fxDraftSub fxUserID aug15 fxFreshID =
      (.ok result, [] ++ [result]) ∧ result.status = Expired) :=
  ⟨by decide, createSubscription_born_expired [] fxDraftSub fxUserID aug15 fxFreshID
    fxUserID (by decide) (by decide) (by decide) (by decide) (by decide) (by decide)
    (by decide) (by decide) (by decide) (by decide) (by decide) (by decide) (by decide)
    (by decide) (by decide) (by decide)⟩
